import Mathlib

/-!
Shallow embedding of the NearEarthObjects repository
(src/models.py, src/extract.py, src/filters.py).

Python floats are embedded as `PFloat`: either the NaN sentinel or an exact
rational value (the numeric literals occurring in the program and its data
are plain decimal strings, faithfully represented by rationals; every
comparison involving NaN is false, as in IEEE-754).  Fallible Python code
(constructors that can raise, comparisons that can raise `TypeError`, the
base `AttributeFilter.get` that raises `UnsupportedCriterionError`) is
embedded with `Except PyError`.
-/

namespace NEO

/-- A Python `float` as used by this program: NaN or an exact value. -/
inductive PFloat where
  | nan : PFloat
  | val : ℚ → PFloat
deriving DecidableEq, Repr

/-- Python `==` on floats: any comparison involving NaN is false. -/
def PFloat.eq : PFloat → PFloat → Bool
  | .val a, .val b => a == b
  | _, _ => false

/-- Python `<=` on floats: any comparison involving NaN is false. -/
def PFloat.le : PFloat → PFloat → Bool
  | .val a, .val b => decide (a ≤ b)
  | _, _ => false

/-- Python `>=` on floats: any comparison involving NaN is false. -/
def PFloat.ge : PFloat → PFloat → Bool
  | .val a, .val b => decide (b ≤ a)
  | _, _ => false

/-- A calendar date, as produced by `datetime.date()`. -/
structure PDate where
  year : Nat
  month : Nat
  day : Nat
deriving DecidableEq, Repr

/-- Python `date <= date`: lexicographic on (year, month, day). -/
def PDate.le (a b : PDate) : Bool :=
  if a.year = b.year then
    (if a.month = b.month then decide (a.day ≤ b.day)
     else decide (a.month ≤ b.month))
  else decide (a.year ≤ b.year)

/-- A `datetime` with minute precision, as produced by `cd_to_datetime`. -/
structure PDateTime where
  date : PDate
  hour : Nat
  minute : Nat
deriving DecidableEq, Repr

/-- The runtime errors the embedded code can raise. -/
inductive PyError where
  | unsupportedCriterion
  | typeError
  | attributeError
  | stopIteration
  | valueError
deriving DecidableEq, Repr

/-- A dynamically-typed Python value flowing through filters. -/
inductive PValue where
  | float : PFloat → PValue
  | bool : Bool → PValue
  | date : PDate → PValue
  | str : String → PValue
deriving DecidableEq, Repr

/-- Numeric view of a value: Python treats `bool` as the integers 0/1 in
numeric comparisons. -/
def PValue.asNum : PValue → Option PFloat
  | .float f => some f
  | .bool b => some (.val (if b then 1 else 0))
  | _ => none

/-- The comparators this program uses (`operator.eq`, `operator.ge`,
`operator.le`). -/
inductive Comparator where
  | eq
  | ge
  | le
deriving DecidableEq, Repr

/-- Python application of a comparator to two values.  `==` between
unrelated types yields `False`; ordered comparison between unrelated types
raises `TypeError`. -/
def Comparator.apply : Comparator → PValue → PValue → Except PyError Bool
  | .eq, a, b =>
    match a.asNum, b.asNum with
    | some x, some y => .ok (PFloat.eq x y)
    | _, _ =>
      match a, b with
      | .date d, .date e => .ok (d == e)
      | .str s, .str t => .ok (s == t)
      | _, _ => .ok false
  | .le, a, b =>
    match a.asNum, b.asNum with
    | some x, some y => .ok (PFloat.le x y)
    | _, _ =>
      match a, b with
      | .date d, .date e => .ok (PDate.le d e)
      | .str s, .str t => .ok (decide (s ≤ t))
      | _, _ => .error .typeError
  | .ge, a, b =>
    match a.asNum, b.asNum with
    | some x, some y => .ok (PFloat.ge x y)
    | _, _ =>
      match a, b with
      | .date d, .date e => .ok (PDate.le e d)
      | .str s, .str t => .ok (decide (t ≤ s))
      | _, _ => .error .typeError

/-- `models.NearEarthObject` after construction through `extract.load_neos`
(which converts the raw `pha` flag to a boolean before calling the
constructor). -/
structure NearEarthObject where
  designation : String
  name : Option String
  diameter : PFloat
  hazardous : Bool
deriving DecidableEq, Repr

/-- `models.NearEarthObject.fullname`. -/
def NearEarthObject.fullname (neo : NearEarthObject) : String :=
  match neo.name with
  | none => neo.designation
  | some n => neo.designation ++ " " ++ n

/-- `models.CloseApproach` (the `neo` reference is `None` until linking). -/
structure CloseApproach where
  designation : String
  time : PDateTime
  distance : PFloat
  velocity : PFloat
  neo : Option NearEarthObject
deriving DecidableEq, Repr

/-- One digit of a decimal numeral. -/
def digitVal (c : Char) : Option Nat :=
  if c.isDigit then some (c.toNat - 48) else none

/-- Digits of a decimal numeral to the `Nat` they denote (empty list is 0;
callers guard against emptiness where Python would reject it). -/
def digitsToNat (cs : List Char) : Option Nat :=
  cs.foldlM (fun acc c => (digitVal c).map (fun d => acc * 10 + d)) 0

/-- Split a numeral at the first dot, if any. -/
def splitDot : List Char → List Char × Option (List Char)
  | [] => ([], none)
  | c :: rest =>
    if c = '.' then ([], some rest)
    else
      let p := splitDot rest
      (c :: p.1, p.2)

/-- Python `float(s)` on the plain decimal literals this data set contains:
an optional sign, digits, an optional dot and fraction digits.  `none`
models the `ValueError` Python raises on an unparsable string. -/
def pyFloat (s : String) : Option ℚ :=
  let cs := s.data
  let sg : ℚ × List Char :=
    match cs with
    | '-' :: r => (-1, r)
    | '+' :: r => (1, r)
    | _ => (1, cs)
  let p := splitDot sg.2
  match p.2 with
  | none =>
    if p.1.isEmpty then none
    else (digitsToNat p.1).map (fun n => sg.1 * n)
  | some f =>
    if p.1.isEmpty && f.isEmpty then none
    else
      match digitsToNat p.1, digitsToNat f with
      | some n, some m => some (sg.1 * ((n : ℚ) + (m : ℚ) / 10 ^ f.length))
      | _, _ => none

/-- Month number of a `%b` month abbreviation. -/
def monthOfAbbrev : String → Option Nat
  | "Jan" => some 1
  | "Feb" => some 2
  | "Mar" => some 3
  | "Apr" => some 4
  | "May" => some 5
  | "Jun" => some 6
  | "Jul" => some 7
  | "Aug" => some 8
  | "Sep" => some 9
  | "Oct" => some 10
  | "Nov" => some 11
  | "Dec" => some 12
  | _ => none

/-- A whole decimal numeral (at least one digit, digits only). -/
def parseNat (cs : List Char) : Option Nat :=
  if cs.isEmpty then none else digitsToNat cs

/-- Split a character list on every occurrence of a separator. -/
def splitOnChar (c : Char) : List Char → List (List Char)
  | [] => [[]]
  | x :: xs =>
    let r := splitOnChar c xs
    if x = c then [] :: r
    else
      match r with
      | [] => [[x]]
      | y :: ys => (x :: y) :: ys

/-- Modelled from the spec: `helpers.cd_to_datetime` is not under `src/`
(only its import in `models.py` is).  Per the spec, it parses "a compact
date-hour timestamp string (format: four-digit year, dash, month, dash,
day, space, 24-hour hour with optional leading zero, optional minute
suffix, no seconds)", e.g. `"1900-Jan-01 00:00"`. -/
def cd_to_datetime (s : String) : Option PDateTime :=
  match splitOnChar ' ' s.data with
  | [datePart, timePart] =>
    match splitOnChar '-' datePart with
    | [y, mon, d] =>
      match parseNat y, monthOfAbbrev ⟨mon⟩, parseNat d with
      | some yn, some mn, some dn =>
        match splitOnChar ':' timePart with
        | [h, mi] =>
          match parseNat h, parseNat mi with
          | some hn, some min => some ⟨⟨yn, mn, dn⟩, hn, min⟩
          | _, _ => none
        | [h] =>
          match parseNat h with
          | some hn => some ⟨⟨yn, mn, dn⟩, hn, 0⟩
          | none => none
        | _ => none
      | _, _, _ => none
    | _ => none
  | _ => none

/-- One row of the NEO CSV, restricted to the fields `load_neos` reads. -/
structure RawNeoRow where
  pdes : String
  name : String
  diameter : String
  pha : String
deriving DecidableEq, Repr

/-- `models.NearEarthObject.__init__`: empty `name` becomes `None`, empty
`diameter` becomes NaN, otherwise `float(diameter)` (whose failure, a
`ValueError`, is the `none` case); `pha` is stored as passed (already a
boolean on the `load_neos` path). -/
def NearEarthObject.init (pdes name diameter : String) (pha : Bool) :
    Option NearEarthObject :=
  let pname : Option String := if name = "" then none else some name
  if diameter = "" then
    some ⟨pdes, pname, .nan, pha⟩
  else
    (pyFloat diameter).map (fun q => ⟨pdes, pname, .val q, pha⟩)

/-- The per-row construction done inside the `load_neos` loop
(extract.py lines 32-37): the raw `pha` flag is `True` exactly when the
field is `"Y"`, then the constructor runs. -/
def neoOfRow (row : RawNeoRow) : Option NearEarthObject :=
  NearEarthObject.init row.pdes row.name row.diameter (row.pha == "Y")

/-- The `for` loop of `load_neos` over the remaining rows; a constructor
failure surfaces as the `ValueError` Python would raise. -/
def neoLoop : List RawNeoRow → Except PyError (List NearEarthObject)
  | [] => .ok []
  | r :: rs =>
    match neoOfRow r with
    | none => .error .valueError
    | some n => (neoLoop rs).map (fun tail => n :: tail)

/-- `extract.load_neos`, over the data rows the `csv.DictReader` yields
(the header row is already consumed by `DictReader` itself).  The extra
`next(reader)` on line 31 consumes — and discards — the first data row,
raising `StopIteration` when there is none. -/
def load_neos : List RawNeoRow → Except PyError (List NearEarthObject)
  | [] => .error .stopIteration
  | _ :: rest => neoLoop rest

/-- One entry of the close-approach JSON, restricted to the fields
`load_approaches` reads. -/
structure RawCadEntry where
  des : String
  cd : String
  dist : String
  vRel : String
deriving DecidableEq, Repr

/-- `models.CloseApproach.__init__` (as called from `load_approaches`):
parse the timestamp and the two floats; `neo` starts out `None`.  `none`
models the exception an unparsable field raises. -/
def CloseApproach.init (e : RawCadEntry) : Option CloseApproach :=
  match cd_to_datetime e.cd, pyFloat e.dist, pyFloat e.vRel with
  | some t, some d, some v => some ⟨e.des, t, .val d, .val v, none⟩
  | _, _, _ => none

/-- The `NEODatabase` linking step, restricted to what the filters need:
resolve the approach's `neo` reference. -/
def CloseApproach.link (a : CloseApproach) (n : NearEarthObject) :
    CloseApproach :=
  { a with neo := some n }

/-- The concrete predicate kinds: the base class `AttributeFilter` (whose
`get` raises) and its five subclasses in filters.py. -/
inductive FilterKind where
  | base
  | distance
  | velocity
  | diameter
  | hazardous
  | date
deriving DecidableEq, Repr

/-- The `get` classmethod of each kind (filters.py lines 60-71 and
168-210).  Crossing an unresolved `neo` link is Python's
`AttributeError` on `None`. -/
def FilterKind.get : FilterKind → CloseApproach → Except PyError PValue
  | .base, _ => .error .unsupportedCriterion
  | .distance, a => .ok (.float a.distance)
  | .velocity, a => .ok (.float a.velocity)
  | .diameter, a =>
    match a.neo with
    | some n => .ok (.float n.diameter)
    | none => .error .attributeError
  | .hazardous, a =>
    match a.neo with
    | some n => .ok (.bool n.hazardous)
    | none => .error .attributeError
  | .date, a => .ok (.date a.time.date)

/-- `filters.AttributeFilter`: a kind (the runtime class), a comparator
and a reference value. -/
structure AttributeFilter where
  kind : FilterKind
  op : Comparator
  value : PValue
deriving DecidableEq, Repr

/-- `AttributeFilter.__call__`: `self.op(self.get(approach), self.value)`,
with exceptions propagated. -/
def AttributeFilter.call (f : AttributeFilter) (a : CloseApproach) :
    Except PyError Bool :=
  match f.kind.get a with
  | .error e => .error e
  | .ok x => f.op.apply x f.value

/-- The `if x is not None: filters.append(f(x))` step repeated throughout
`create_filters`. -/
def appendIfSupplied (filters : List AttributeFilter) (o : Option β)
    (g : β → AttributeFilter) : List AttributeFilter :=
  match o with
  | some v => filters ++ [g v]
  | none => filters

/-- `filters.create_filters`: one filter appended per non-`None` argument,
in the source's append order. -/
def create_filters
    (date start_date end_date : Option PDate)
    (distance_min distance_max velocity_min velocity_max : Option PFloat)
    (diameter_min diameter_max : Option PFloat)
    (hazardous : Option Bool) : List AttributeFilter :=
  let filters : List AttributeFilter := []
  let filters := appendIfSupplied filters date (fun v => ⟨.date, .eq, .date v⟩)
  let filters := appendIfSupplied filters start_date
    (fun v => ⟨.date, .ge, .date v⟩)
  let filters := appendIfSupplied filters end_date
    (fun v => ⟨.date, .le, .date v⟩)
  let filters := appendIfSupplied filters distance_max
    (fun v => ⟨.distance, .le, .float v⟩)
  let filters := appendIfSupplied filters distance_min
    (fun v => ⟨.distance, .ge, .float v⟩)
  let filters := appendIfSupplied filters velocity_max
    (fun v => ⟨.velocity, .le, .float v⟩)
  let filters := appendIfSupplied filters velocity_min
    (fun v => ⟨.velocity, .ge, .float v⟩)
  let filters := appendIfSupplied filters diameter_max
    (fun v => ⟨.diameter, .le, .float v⟩)
  let filters := appendIfSupplied filters diameter_min
    (fun v => ⟨.diameter, .ge, .float v⟩)
  let filters := appendIfSupplied filters hazardous
    (fun v => ⟨.hazardous, .eq, .bool v⟩)
  filters

/-- `filters.limit`: `if n:` is Python truthiness, so both `None` and `0`
return the iterator unchanged; a positive `n` takes the first `n`
elements (`itertools.islice`).  A negative `n` is out of contract and not
representable here. -/
def limit (iterator : List α) (n : Option Nat) : List α :=
  match n with
  | none => iterator
  | some k => if k ≠ 0 then iterator.take k else iterator

/-- A small concrete NEO used to instantiate universally quantified
results. -/
def neoW : NearEarthObject := ⟨"433", none, .val 1, false⟩

/-- A small concrete NEO with unknown diameter. -/
def neoNanW : NearEarthObject := ⟨"433", none, .nan, false⟩

/-- A small concrete close approach linked to `neoW`. -/
def caW : CloseApproach :=
  ⟨"433", ⟨⟨2020, 1, 1⟩, 0, 0⟩, .val 1, .val 2, some neoW⟩

/-- A small concrete close approach linked to `neoNanW`. -/
def caNanW : CloseApproach :=
  ⟨"433", ⟨⟨2020, 1, 1⟩, 0, 0⟩, .val 1, .val 2, some neoNanW⟩

/-- `create_filters` in closed form: each argument contributes its filter
(in the source's append order) exactly when it is supplied. -/
lemma create_filters_eq
    (date start_date end_date : Option PDate)
    (distance_min distance_max velocity_min velocity_max : Option PFloat)
    (diameter_min diameter_max : Option PFloat)
    (hazardous : Option Bool) :
    create_filters date start_date end_date distance_min distance_max
        velocity_min velocity_max diameter_min diameter_max hazardous =
      (date.toList.map fun v => ⟨.date, .eq, .date v⟩) ++
      (start_date.toList.map fun v => ⟨.date, .ge, .date v⟩) ++
      (end_date.toList.map fun v => ⟨.date, .le, .date v⟩) ++
      (distance_max.toList.map fun v => ⟨.distance, .le, .float v⟩) ++
      (distance_min.toList.map fun v => ⟨.distance, .ge, .float v⟩) ++
      (velocity_max.toList.map fun v => ⟨.velocity, .le, .float v⟩) ++
      (velocity_min.toList.map fun v => ⟨.velocity, .ge, .float v⟩) ++
      (diameter_max.toList.map fun v => ⟨.diameter, .le, .float v⟩) ++
      (diameter_min.toList.map fun v => ⟨.diameter, .ge, .float v⟩) ++
      (hazardous.toList.map fun v => ⟨.hazardous, .eq, .bool v⟩) := by
  have hstep : ∀ (l : List AttributeFilter) (β : Type) (o : Option β)
      (g : β → AttributeFilter),
      appendIfSupplied l o g = l ++ o.toList.map g := by
    intro l β o g; cases o <;> simp [appendIfSupplied]
  simp only [create_filters, hstep, List.nil_append, List.append_assoc]

/-- Evaluation of `float("0.370")`. -/
lemma pyFloat_0370 : pyFloat "0.370" = some (37 / 100 : ℚ) := by
  have h : pyFloat "0.370" =
      some ((1 : ℚ) * (((0 : ℕ) : ℚ) + ((370 : ℕ) : ℚ) / 10 ^ 3)) := rfl
  rw [h]; norm_num

/-- Evaluation of `float("0.092")`. -/
lemma pyFloat_0092 : pyFloat "0.092" = some (23 / 250 : ℚ) := by
  have h : pyFloat "0.092" =
      some ((1 : ℚ) * (((0 : ℕ) : ℚ) + ((92 : ℕ) : ℚ) / 10 ^ 3)) := rfl
  rw [h]; norm_num

/-- Evaluation of `float("13.5")`. -/
lemma pyFloat_135 : pyFloat "13.5" = some (27 / 2 : ℚ) := by
  have h : pyFloat "13.5" =
      some ((1 : ℚ) * (((13 : ℕ) : ℚ) + ((5 : ℕ) : ℚ) / 10 ^ 1)) := rfl
  rw [h]; norm_num

/-- Evaluation of the timestamp parser on the example date-hour string. -/
lemma cd_1900 :
    cd_to_datetime "1900-Jan-01 00:00" = some ⟨⟨1900, 1, 1⟩, 0, 0⟩ := by
  decide

/-- C5: constructing a `NearEarthObject` from the raw record with pdes
`"433"`, empty name, empty diameter and hazard flag `"N"` yields name
`None` (not the empty string), diameter NaN, `hazardous = False`, and a
`fullname` rendering as `"433"`. -/
theorem c5_neo_433_sentinels :
    neoOfRow ⟨"433", "", "", "N"⟩ = some ⟨"433", none, .nan, false⟩ ∧
      NearEarthObject.fullname ⟨"433", none, .nan, false⟩ = "433" := by
  exact ⟨by decide, rfl⟩

/-- C6: invoking a predicate of the base kind (no `get` override) returns
`UnsupportedCriterionError` on every close approach, propagated to the
caller. -/
theorem c6_base_filter_raises (op : Comparator) (v : PValue)
    (a : CloseApproach) :
    AttributeFilter.call ⟨.base, op, v⟩ a = .error .unsupportedCriterion :=
  rfl

/-- C8: the raw record with pdes `"2000 AB"`, name `"Apophis-like"`,
diameter `"0.370"`, flag `"Y"` yields fullname `"2000 AB Apophis-like"`
and `hazardous = True`; the close approach built from `"433"`,
`"1900-Jan-01 00:00"`, `"0.092"`, `"13.5"`, once linked to that NEO,
satisfies the Diameter-`≥`-0.3 predicate and falsifies the
Hazardous-equal-False predicate. -/
theorem c8_concrete_roundtrip :
    ∃ n a, neoOfRow ⟨"2000 AB", "Apophis-like", "0.370", "Y"⟩ = some n ∧
      n.fullname = "2000 AB Apophis-like" ∧ n.hazardous = true ∧
      CloseApproach.init ⟨"433", "1900-Jan-01 00:00", "0.092", "13.5"⟩ =
        some a ∧
      AttributeFilter.call ⟨.diameter, .ge, .float (.val (3 / 10))⟩
        (a.link n) = .ok true ∧
      AttributeFilter.call ⟨.hazardous, .eq, .bool false⟩
        (a.link n) = .ok false := by
  refine ⟨⟨"2000 AB", some "Apophis-like", .val (37 / 100), true⟩,
    ⟨"433", ⟨⟨1900, 1, 1⟩, 0, 0⟩, .val (23 / 250), .val (27 / 2), none⟩,
    ?_, rfl, rfl, ?_, ?_, ?_⟩
  · simp +decide [neoOfRow, NearEarthObject.init, pyFloat_0370]
  · simp +decide [CloseApproach.init, cd_1900, pyFloat_0092, pyFloat_135]
  · simp [AttributeFilter.call, CloseApproach.link, FilterKind.get,
      Comparator.apply, PValue.asNum, PFloat.ge]
    norm_num
  · simp [AttributeFilter.call, CloseApproach.link, FilterKind.get,
      Comparator.apply, PValue.asNum, PFloat.eq]

/-- C9: the Date kind extracts only the calendar-date component of the
approach time, so a Date-equal-D predicate is true on every approach
whose timestamp falls anywhere within day D, whatever the hour and
minute. -/
theorem c9_date_truncation (a : CloseApproach) (D : PDate)
    (h : a.time.date = D) :
    FilterKind.date.get a = .ok (.date a.time.date) ∧
      AttributeFilter.call ⟨.date, .eq, .date D⟩ a = .ok true := by
  refine ⟨rfl, ?_⟩
  simp [AttributeFilter.call, FilterKind.get, Comparator.apply,
    PValue.asNum, h]

/-- C7: a Diameter predicate with comparator `≥` or `≤` and any reference
value evaluates false on every approach linked to a NEO whose diameter is
the NaN sentinel. -/
theorem c7_nan_diameter_false (n : NearEarthObject) (hd : n.diameter = .nan)
    (a : CloseApproach) (ha : a.neo = some n) (op : Comparator)
    (hop : op = .ge ∨ op = .le) (v : PFloat) :
    AttributeFilter.call ⟨.diameter, op, .float v⟩ a = .ok false := by
  rcases hop with h | h <;> subst h <;>
    simp [AttributeFilter.call, FilterKind.get, ha, hd, Comparator.apply,
      PValue.asNum, PFloat.ge, PFloat.le]

/-- C1: a predicate built from comparator `op` and value `V` returns
`op(extract(a), V)` on every approach `a`, with the extractor of its
kind (distance, velocity, the linked NEO's diameter or hazard flag, or
the calendar date of the approach time); in particular for `op = ≤` the
call returns true iff the extracted attribute is `≤ V` under Python's
comparison. -/
theorem c1_filter_call_spec (op : Comparator) (v : PValue)
    (a : CloseApproach) (n : NearEarthObject) (h : a.neo = some n) :
    (AttributeFilter.call ⟨.distance, op, v⟩ a =
        op.apply (.float a.distance) v ∧
      AttributeFilter.call ⟨.velocity, op, v⟩ a =
        op.apply (.float a.velocity) v ∧
      AttributeFilter.call ⟨.diameter, op, v⟩ a =
        op.apply (.float n.diameter) v ∧
      AttributeFilter.call ⟨.hazardous, op, v⟩ a =
        op.apply (.bool n.hazardous) v ∧
      AttributeFilter.call ⟨.date, op, v⟩ a =
        op.apply (.date a.time.date) v) ∧
    (∀ q : PFloat,
      (AttributeFilter.call ⟨.distance, .le, .float q⟩ a = .ok true ↔
        PFloat.le a.distance q = true) ∧
      (AttributeFilter.call ⟨.velocity, .le, .float q⟩ a = .ok true ↔
        PFloat.le a.velocity q = true) ∧
      (AttributeFilter.call ⟨.diameter, .le, .float q⟩ a = .ok true ↔
        PFloat.le n.diameter q = true)) ∧
    (∀ b : Bool,
      AttributeFilter.call ⟨.hazardous, .le, .bool b⟩ a = .ok true ↔
        (n.hazardous = false ∨ b = true)) ∧
    (∀ d : PDate,
      AttributeFilter.call ⟨.date, .le, .date d⟩ a = .ok true ↔
        PDate.le a.time.date d = true) := by
  refine ⟨⟨?_, ?_, ?_, ?_, ?_⟩, ?_, ?_, ?_⟩
  · simp [AttributeFilter.call, FilterKind.get, h]
  · simp [AttributeFilter.call, FilterKind.get, h]
  · simp [AttributeFilter.call, FilterKind.get, h]
  · simp [AttributeFilter.call, FilterKind.get, h]
  · simp [AttributeFilter.call, FilterKind.get, h]
  · intro q
    simp [AttributeFilter.call, FilterKind.get, h, Comparator.apply,
      PValue.asNum]
  · intro b
    cases hb : n.hazardous <;> cases b <;>
      simp [AttributeFilter.call, FilterKind.get, h, hb, Comparator.apply,
        PValue.asNum, PFloat.le]
  · intro d
    simp [AttributeFilter.call, FilterKind.get, h, Comparator.apply,
      PValue.asNum]

/-- Witness for C1 at a concrete linked approach, comparator `≤` and
reference value 1. -/
theorem c1_filter_call_spec_witness :
    AttributeFilter.call ⟨.distance, .le, .float (.val 1)⟩ caW =
      Comparator.apply .le (.float caW.distance) (.float (.val 1)) ∧
    (AttributeFilter.call ⟨.hazardous, .le, .bool false⟩ caW = .ok true ↔
      (neoW.hazardous = false ∨ false = true)) := by
  have h := c1_filter_call_spec .le (.float (.val 1)) caW neoW rfl
  exact ⟨h.1.1, h.2.2.1 false⟩

/-- C2: `create_filters` yields exactly one predicate per supplied
argument and none for an absent one, with equality for `date` and
`hazardous`, `≥` for the `min`/`start` criteria, `≤` for the `max`/`end`
criteria, each on the predicate kind of its attribute; with no criteria
it yields the empty collection. -/
theorem c2_create_filters_shape :
    (∀ (date start_date end_date : Option PDate)
      (distance_min distance_max velocity_min velocity_max : Option PFloat)
      (diameter_min diameter_max : Option PFloat)
      (hazardous : Option Bool),
      create_filters date start_date end_date distance_min distance_max
          velocity_min velocity_max diameter_min diameter_max hazardous =
        (date.toList.map fun v => ⟨.date, .eq, .date v⟩) ++
        (start_date.toList.map fun v => ⟨.date, .ge, .date v⟩) ++
        (end_date.toList.map fun v => ⟨.date, .le, .date v⟩) ++
        (distance_max.toList.map fun v => ⟨.distance, .le, .float v⟩) ++
        (distance_min.toList.map fun v => ⟨.distance, .ge, .float v⟩) ++
        (velocity_max.toList.map fun v => ⟨.velocity, .le, .float v⟩) ++
        (velocity_min.toList.map fun v => ⟨.velocity, .ge, .float v⟩) ++
        (diameter_max.toList.map fun v => ⟨.diameter, .le, .float v⟩) ++
        (diameter_min.toList.map fun v => ⟨.diameter, .ge, .float v⟩) ++
        (hazardous.toList.map fun v => ⟨.hazardous, .eq, .bool v⟩)) ∧
    create_filters none none none none none none none none none none =
      [] :=
  ⟨create_filters_eq, rfl⟩

/-- C3: `limit` with `None` or `0` returns the input unchanged; with
`0 < k < length` it returns exactly the first `k` elements in order, and
its result depends only on the first `k` elements of the source (no
element beyond index `k` is consumed). -/
theorem c3_limit_spec (α : Type) (seq : List α) :
    limit seq none = seq ∧ limit seq (some 0) = seq ∧
    ∀ k : ℕ, 0 < k → k < seq.length →
      limit seq (some k) = seq.take k ∧ (seq.take k).length = k ∧
      ∀ seq2 : List α, seq.take k = seq2.take k →
        limit seq (some k) = limit seq2 (some k) := by
  refine ⟨rfl, rfl, ?_⟩
  intro k hk hlen
  have hne : k ≠ 0 := Nat.pos_iff_ne_zero.mp hk
  refine ⟨by simp [limit, hne], ?_, ?_⟩
  · simp [List.length_take]
    omega
  · intro seq2 hpre
    simp [limit, hne, hpre]

/-- Witness for C3 at `k = 1` over a three-element list. -/
theorem c3_limit_spec_witness :
    limit [10, 20, 30] (some 1) = [10, 20, 30].take 1 ∧
      limit [10, 20, 30] (some 1) = limit [10, 99, 99] (some 1) := by
  have h := (c3_limit_spec ℕ [10, 20, 30]).2.2 1 (by decide) (by decide)
  exact ⟨h.1, h.2.2 [10, 99, 99] (by decide)⟩

/-- C4: presence of the hazardous criterion is keyed on the `None`
sentinel, not truthiness: `hazardous=False` yields exactly the
equal-False Hazardous predicate, while leaving `hazardous` unset yields
no hazardous predicate whatever the other arguments are. -/
theorem c4_hazardous_sentinel :
    create_filters none none none none none none none none none
        (some false) = [⟨.hazardous, .eq, .bool false⟩] ∧
    ∀ (date start_date end_date : Option PDate)
      (distance_min distance_max velocity_min velocity_max : Option PFloat)
      (diameter_min diameter_max : Option PFloat),
      (create_filters date start_date end_date distance_min distance_max
          velocity_min velocity_max diameter_min diameter_max none).all
        (fun f => f.kind != .hazardous) = true := by
  refine ⟨rfl, ?_⟩
  intro date start_date end_date dmin dmax vmin vmax dimin dimax
  have hall : ∀ (β : Type) (o : Option β) (g : β → AttributeFilter),
      (∀ v, (g v).kind != .hazardous) →
      ((o.toList.map g).all fun f => f.kind != .hazardous) = true := by
    intro β o g hg
    cases o with
    | none => rfl
    | some v => simpa using hg v
  rw [create_filters_eq]
  simp only [List.all_append, Bool.and_eq_true]
  repeat' apply And.intro
  all_goals first
    | rfl
    | exact hall _ _ _ (fun v => rfl)

/-- Witness for C7 at a concrete NaN-diameter NEO and comparator `≥`. -/
theorem c7_nan_diameter_false_witness :
    AttributeFilter.call ⟨.diameter, .ge, .float (.val 1)⟩ caNanW =
      .ok false :=
  c7_nan_diameter_false neoNanW rfl caNanW rfl .ge (Or.inl rfl) (.val 1)

/-- Witness for C9 at a concrete approach whose time-of-day is not
midnight. -/
theorem c9_date_truncation_witness :
    FilterKind.date.get caW = .ok (.date caW.time.date) ∧
      AttributeFilter.call ⟨.date, .eq, .date ⟨2020, 1, 1⟩⟩ caW =
        .ok true :=
  c9_date_truncation caW ⟨2020, 1, 1⟩ rfl

/-- The loop of `load_neos` yields one NEO per row it processes. -/
lemma neoLoop_length (rs : List RawNeoRow) (out : List NearEarthObject)
    (h : neoLoop rs = .ok out) : out.length = rs.length := by
  induction rs generalizing out with
  | nil =>
    simp only [neoLoop, Except.ok.injEq] at h
    subst h; rfl
  | cons r rs ih =>
    unfold neoLoop at h
    cases hneo : neoOfRow r with
    | none => rw [hneo] at h; exact absurd h (by simp)
    | some n =>
      rw [hneo] at h
      cases hl : neoLoop rs with
      | error e => rw [hl] at h; exact absurd h (by simp [Except.map])
      | ok t =>
        rw [hl] at h
        simp only [Except.map, Except.ok.injEq] at h
        subst h
        simp [ih t hl]

/-- C10: on a CSV with a header and `k ≥ 1` data rows, `load_neos`
returns exactly `k - 1` NEOs — the extra `next(reader)` discards one data
row the `DictReader` has already positioned past the header, so the first
data row never enters the result (the result is independent of it). -/
theorem c10_load_neos_drops_first_row (row : RawNeoRow)
    (rest : List RawNeoRow) (out : List NearEarthObject)
    (h : load_neos (row :: rest) = .ok out) :
    out.length = (row :: rest).length - 1 ∧
      ∀ row2 : RawNeoRow, load_neos (row2 :: rest) = .ok out := by
  refine ⟨?_, fun row2 => h⟩
  simpa using neoLoop_length rest out h

/-- Witness for C10 on a two-row input: the row with pdes `"1"` is
dropped and only the row with pdes `"2"` is loaded. -/
theorem c10_load_neos_drops_first_row_witness :
    (([⟨"2", none, .nan, true⟩] : List NearEarthObject).length =
        ([⟨"1", "", "", "N"⟩, ⟨"2", "", "", "Y"⟩] :
          List RawNeoRow).length - 1) ∧
      ∀ row2 : RawNeoRow,
        load_neos (row2 :: [⟨"2", "", "", "Y"⟩]) =
          .ok [⟨"2", none, .nan, true⟩] :=
  c10_load_neos_drops_first_row ⟨"1", "", "", "N"⟩ [⟨"2", "", "", "Y"⟩]
    [⟨"2", none, .nan, true⟩] rfl

end NEO
